import Mathlib

/-!
Verification development for the geoprox-api mobile frontend token lifecycle:
a shallow embedding of src/frontend/utils/tokenManager.ts and
src/frontend/utils/apiClient.ts, followed by theorems about the embedded
operations.

Modelling choices:
* The secure token store (expo-secure-store on native, AsyncStorage on web)
  is a string key-value store; we embed it as an association list with the
  usual get/put/delete operations.
* Date.now() is a parameter `now : Int` (milliseconds since the epoch).
* JavaScript parseInt is embedded as `parseIntJS : String -> Option Int`,
  where `none` stands for NaN; a comparison `now >= (NaN - m)` is false in
  JavaScript, which the embedding reflects at each use site.
* The network is an oracle parameter: `RefreshOutcome` describes how the
  backend answers one refresh POST, and `NetEnv` describes the responses a
  single apiClient.fetch call can observe.
-/

namespace Geoprox

/-! ## Association-list key-value store -/

/-- Update-or-append on an association list; mirrors assigning a key in a
JavaScript object or calling setItem on a key-value storage backend. -/
def putAssoc : List (String × String) → String → String → List (String × String)
  | [], k, v => [(k, v)]
  | p :: rest, k, v => if p.1 = k then (k, v) :: rest else p :: putAssoc rest k v

/-- Lookup on an association list (getItem; absent key gives none, the
embedding of a null read). -/
def getAssoc : List (String × String) → String → Option String
  | [], _ => none
  | p :: rest, k => if p.1 = k then some p.2 else getAssoc rest k

/-- Removal on an association list (deleteItem / removeItem). -/
def delAssoc : List (String × String) → String → List (String × String)
  | [], _ => []
  | p :: rest, k => if p.1 = k then delAssoc rest k else p :: delAssoc rest k

theorem getAssoc_putAssoc_same (l : List (String × String)) (k v : String) :
    getAssoc (putAssoc l k v) k = some v := by
  induction l with
  | nil => simp [putAssoc, getAssoc]
  | cons p rest ih =>
    by_cases h : p.1 = k
    · simp [putAssoc, getAssoc, h]
    · simpa [putAssoc, getAssoc, h] using ih

theorem getAssoc_putAssoc_ne (l : List (String × String)) (k v k' : String)
    (h : k' ≠ k) : getAssoc (putAssoc l k v) k' = getAssoc l k' := by
  induction l with
  | nil => simp [putAssoc, getAssoc, Ne.symm h]
  | cons p rest ih =>
    by_cases hp : p.1 = k
    · simp [putAssoc, getAssoc, hp, Ne.symm h]
    · by_cases hp' : p.1 = k'
      · simp [putAssoc, getAssoc, hp, hp', h]
      · simpa [putAssoc, getAssoc, hp, hp'] using ih

theorem getAssoc_delAssoc_same (l : List (String × String)) (k : String) :
    getAssoc (delAssoc l k) k = none := by
  induction l with
  | nil => simp [delAssoc, getAssoc]
  | cons p rest ih =>
    by_cases h : p.1 = k
    · simpa [delAssoc, getAssoc, h] using ih
    · simpa [delAssoc, getAssoc, h] using ih

theorem getAssoc_delAssoc_ne (l : List (String × String)) (k k' : String)
    (h : k' ≠ k) : getAssoc (delAssoc l k) k' = getAssoc l k' := by
  induction l with
  | nil => simp [delAssoc, getAssoc]
  | cons p rest ih =>
    by_cases hp : p.1 = k
    · have hpk' : ¬ p.1 = k' := by
        rw [hp]
        exact Ne.symm h
      simpa [delAssoc, getAssoc, hp, hpk', h, Ne.symm h] using ih
    · by_cases hp' : p.1 = k'
      · simp [delAssoc, getAssoc, hp, hp', h]
      · simpa [delAssoc, getAssoc, hp, hp'] using ih

theorem delAssoc_of_absent (l : List (String × String)) (k : String)
    (h : getAssoc l k = none) : delAssoc l k = l := by
  induction l with
  | nil => simp [delAssoc]
  | cons p rest ih =>
    by_cases hp : p.1 = k
    · simp [getAssoc, hp] at h
    · have h' : getAssoc rest k = none := by
        simpa [getAssoc, hp] using h
      simp [delAssoc, hp, ih h']

/-! ## JavaScript parseInt -/

/-- Value of a decimal digit character. -/
def decDigitVal (c : Char) : Nat := c.toNat - 48

/-- Hexadecimal digit test, as accepted by parseInt with an 0x prefix. -/
def isHexDigit (c : Char) : Bool :=
  c.isDigit || ('a' ≤ c && c ≤ 'f') || ('A' ≤ c && c ≤ 'F')

/-- Value of a hexadecimal digit character. -/
def hexDigitVal (c : Char) : Nat :=
  if c.isDigit then c.toNat - 48
  else if 'a' ≤ c then c.toNat - 87
  else c.toNat - 55

/-- Whitespace skipped by parseInt before the number. -/
def isJsSpace (c : Char) : Bool :=
  c = ' ' || c = '\t' || c = '\n' || c = '\r'

/-- Embedding of JavaScript parseInt(s) with no explicit radix: skip leading
whitespace, an optional sign, auto-detect an 0x/0X hexadecimal prefix,
consume the longest digit run, and yield none (NaN) when no digit was
consumed. -/
def parseIntJS (s : String) : Option Int :=
  let l0 := s.data.dropWhile isJsSpace
  let sign : Int := match l0 with
    | '-' :: _ => -1
    | _ => 1
  let l1 := match l0 with
    | '-' :: rest => rest
    | '+' :: rest => rest
    | _ => l0
  match l1 with
  | '0' :: 'x' :: rest =>
    let ds := rest.takeWhile isHexDigit
    if ds = [] then none
    else some (sign * (ds.foldl (fun acc c => acc * 16 + hexDigitVal c) 0 : Nat))
  | '0' :: 'X' :: rest =>
    let ds := rest.takeWhile isHexDigit
    if ds = [] then none
    else some (sign * (ds.foldl (fun acc c => acc * 16 + hexDigitVal c) 0 : Nat))
  | _ =>
    let ds := l1.takeWhile Char.isDigit
    if ds = [] then none
    else some (sign * (ds.foldl (fun acc c => acc * 10 + decDigitVal c) 0 : Nat))

/-! ## Token Manager (src/frontend/utils/tokenManager.ts) -/

/-- The token store contents. -/
abbrev Store := List (String × String)

def ACCESS_TOKEN_KEY : String := "access_token"
def REFRESH_TOKEN_KEY : String := "refresh_token"
def TOKEN_EXPIRY_KEY : String := "token_expiry"
def REFRESH_EXPIRY_KEY : String := "refresh_expiry"

/-- storage.setItem. -/
def setItem (st : Store) (k v : String) : Store := putAssoc st k v

/-- storage.getItem. -/
def getItem (st : Store) (k : String) : Option String := getAssoc st k

/-- storage.deleteItem. -/
def deleteItem (st : Store) (k : String) : Store := delAssoc st k

/-- TokenManager.storeTokens: derive both expiries from now and the TTLs in
seconds, then write all four keys (the source awaits Promise.all of the four
writes; the keys are pairwise distinct, so sequential writes are
equivalent). -/
def storeTokens (st : Store) (accessToken refreshToken : String)
    (expiresIn refreshExpiresIn : Int) (now : Int) : Store :=
  let accessExpiry := now + expiresIn * 1000
  let refreshExpiry := now + refreshExpiresIn * 1000
  setItem (setItem (setItem (setItem st
    ACCESS_TOKEN_KEY accessToken)
    REFRESH_TOKEN_KEY refreshToken)
    TOKEN_EXPIRY_KEY (toString accessExpiry))
    REFRESH_EXPIRY_KEY (toString refreshExpiry)

/-- TokenManager.getAccessToken. -/
def getAccessToken (st : Store) : Option String := getItem st ACCESS_TOKEN_KEY

/-- TokenManager.getRefreshToken. -/
def getRefreshToken (st : Store) : Option String := getItem st REFRESH_TOKEN_KEY

/-- Shared shape of the two expiry checks: a missing value or the empty
string (the only falsy string) is expired; a value parseInt turns into NaN
makes the comparison now >= NaN - margin false; otherwise compare against
the parsed expiry minus the margin. -/
def expiryCheck (expiry : Option String) (now marginMs : Int) : Bool :=
  match expiry with
  | none => true
  | some e =>
    if e = "" then true
    else
      match parseIntJS e with
      | none => false
      | some expiryTime => decide (now ≥ expiryTime - marginMs)

/-- TokenManager.isAccessTokenExpired: expired when now >= expiry - 5 min. -/
def isAccessTokenExpired (st : Store) (now : Int) : Bool :=
  expiryCheck (getItem st TOKEN_EXPIRY_KEY) now (5 * 60 * 1000)

/-- TokenManager.isRefreshTokenExpired: expired when now >= expiry, no
margin. -/
def isRefreshTokenExpired (st : Store) (now : Int) : Bool :=
  expiryCheck (getItem st REFRESH_EXPIRY_KEY) now 0

/-- TokenManager.clearTokens: delete all four keys. -/
def clearTokens (st : Store) : Store :=
  deleteItem (deleteItem (deleteItem (deleteItem st
    ACCESS_TOKEN_KEY) REFRESH_TOKEN_KEY) TOKEN_EXPIRY_KEY) REFRESH_EXPIRY_KEY

/-- Parsed JSON body of a successful refresh response. -/
structure RefreshData where
  access_token : String
  refresh_token : String
  expires_in : Int
  refresh_expires_in : Int
deriving DecidableEq, Repr

/-- How the backend answers one POST to /api/mobile/auth/refresh:
a 2xx response with a parsed body, a non-2xx response (response.ok false),
or a network/parse exception. -/
inductive RefreshOutcome where
  | ok (data : RefreshData)
  | httpError
  | exn
deriving DecidableEq, Repr

/-- Result of TokenManager.refreshAccessToken: the returned boolean, the
store afterwards, and how many network calls were made. -/
structure RefreshResult where
  success : Bool
  store : Store
  networkCalls : Nat
deriving DecidableEq, Repr

/-- TokenManager.refreshAccessToken: read the refresh token (a null or empty
string is falsy and returns false with no network call); otherwise POST to
the refresh endpoint; on 2xx store the four returned values and return true;
on non-2xx or an exception return false. -/
def refreshAccessToken (st : Store) (o : RefreshOutcome) (now : Int) :
    RefreshResult :=
  match getRefreshToken st with
  | none => ⟨false, st, 0⟩
  | some refreshToken =>
    if refreshToken = "" then ⟨false, st, 0⟩
    else
      match o with
      | .ok d =>
        ⟨true, storeTokens st d.access_token d.refresh_token
          d.expires_in d.refresh_expires_in now, 1⟩
      | .httpError => ⟨false, st, 1⟩
      | .exn => ⟨false, st, 1⟩

/-! ## Authenticated request client (src/frontend/utils/apiClient.ts) -/

/-- Request headers, in JavaScript-object insertion order. -/
abbrev Headers := List (String × String)

/-- Assigning one key in a headers object. -/
def setHeader (hs : Headers) (k v : String) : Headers := putAssoc hs k v

/-- Reading one key of a headers object. -/
def getHeader (hs : Headers) (k : String) : Option String := getAssoc hs k

/-- Object spread: start from the base object and assign every entry of the
spread object in order, as the literal with Content-Type followed by
...options.headers does. -/
def jsMerge (base : Headers) (extra : Headers) : Headers :=
  extra.foldl (fun acc p => setHeader acc p.1 p.2) base

/-- An HTTP response as the client observes it: the status plus an opaque
body identifying the response object. -/
structure Response where
  status : Nat
  body : String
deriving DecidableEq, Repr

/-- Network oracle for one apiClient.fetch call: how the backend would
answer a pre-flight refresh, the caller's request, a post-flight refresh,
and the retried request. -/
structure NetEnv where
  preflightRefresh : RefreshOutcome
  response1 : Response
  postflightRefresh : RefreshOutcome
  response2 : Response
deriving DecidableEq, Repr

/-- One dispatch of the caller's request. -/
structure DispatchedRequest where
  url : String
  headers : Headers
deriving DecidableEq, Repr

/-- What apiClient.fetch hands back to the call site: a response, or the
thrown Error with message Session expired. -/
inductive FetchResult where
  | success (r : Response)
  | sessionExpired
deriving DecidableEq, Repr

/-- Observable outcome of one apiClient.fetch call. dispatchStore records
the token-store state at the moment the first dispatch happened (none when
the call failed pre-flight and nothing was sent); requests lists the
dispatches of the caller's request in order; refreshCalls counts POSTs to
the refresh endpoint. -/
structure FetchOutput where
  result : FetchResult
  finalStore : Store
  dispatchStore : Option Store
  asyncStorageCleared : Bool
  navigatedToRoot : Bool
  requests : List DispatchedRequest
  refreshCalls : Nat
deriving DecidableEq, Repr

/-- Headers of the first dispatch: the object literal holding Content-Type
followed by the spread of the caller's headers, with Authorization assigned
afterwards when the access token read from the store is truthy (neither
null nor the empty string). -/
def buildHeaders (s1 : Store) (optHeaders : Headers) : Headers :=
  let token := getAccessToken s1
  let headers0 := jsMerge [("Content-Type", "application/json")] optHeaders
  match token with
  | some t => if t = "" then headers0
              else setHeader headers0 "Authorization" ("Bearer " ++ t)
  | none => headers0

/-- Steps 2-5 of apiClient.fetch, after the pre-flight check has left the
store in state s1: build the headers object from the Content-Type default
and the caller's headers, attach Authorization when the access token is
truthy, dispatch, and on a 401 run exactly one refresh; when it succeeds,
re-read the token (a null read interpolates as the string null), overwrite
Authorization, re-dispatch once, and return that second response as is;
when it fails, clear all state, navigate to the root, and throw. -/
def apiFetchDispatch (s1 : Store) (now : Int) (env : NetEnv) (url : String)
    (optHeaders : Headers) (rc0 : Nat) : FetchOutput :=
  let headers := buildHeaders s1 optHeaders
  if env.response1.status = 401 then
    let r := refreshAccessToken s1 env.postflightRefresh now
    if r.success then
      let newToken := getAccessToken r.store
      let headers2 := setHeader headers "Authorization"
        ("Bearer " ++ (match newToken with | some t2 => t2 | none => "null"))
      { result := .success env.response2, finalStore := r.store,
        dispatchStore := some s1, asyncStorageCleared := false,
        navigatedToRoot := false,
        requests := [⟨url, headers⟩, ⟨url, headers2⟩],
        refreshCalls := rc0 + r.networkCalls }
    else
      { result := .sessionExpired, finalStore := clearTokens r.store,
        dispatchStore := some s1, asyncStorageCleared := true,
        navigatedToRoot := true, requests := [⟨url, headers⟩],
        refreshCalls := rc0 + r.networkCalls }
  else
    { result := .success env.response1, finalStore := s1,
      dispatchStore := some s1, asyncStorageCleared := false,
      navigatedToRoot := false, requests := [⟨url, headers⟩],
      refreshCalls := rc0 }

/-- apiClient.fetch: the pre-flight check (refresh when the access token is
expired; on a failed refresh clear the tokens and cached session data,
navigate to the root, and throw Session expired without dispatching),
followed by the dispatch and post-flight logic of apiFetchDispatch. -/
def apiFetch (st : Store) (now : Int) (env : NetEnv) (url : String)
    (optHeaders : Headers) : FetchOutput :=
  if isAccessTokenExpired st now then
    let r0 := refreshAccessToken st env.preflightRefresh now
    if r0.success then apiFetchDispatch r0.store now env url optHeaders r0.networkCalls
    else
      { result := .sessionExpired, finalStore := clearTokens r0.store,
        dispatchStore := none, asyncStorageCleared := true,
        navigatedToRoot := true, requests := [],
        refreshCalls := r0.networkCalls }
  else apiFetchDispatch st now env url optHeaders 0

/-! ## Token store with injectable storage failures

The spec's Secure Token Store admits IOError-class failures. To reason about
how the Token Manager treats them, ExStore pairs the data with the set of
keys on which any storage operation throws; the effectful operations return
Except, where error () is the embedding of a thrown storage exception. -/

structure ExStore where
  data : Store
  faulty : List String
deriving DecidableEq, Repr

/-- Effectful storage.getItem: throws on a faulty key. -/
def exGet (s : ExStore) (k : String) : Except Unit (Option String) :=
  if k ∈ s.faulty then .error () else .ok (getItem s.data k)

/-- One write of Promise.all: a faulty key leaves the data unchanged (its
own promise rejects), a healthy key commits. -/
def trySet (s : ExStore) (k v : String) : ExStore :=
  if k ∈ s.faulty then s else { s with data := setItem s.data k v }

/-- One delete of Promise.all, analogously. -/
def tryDel (s : ExStore) (k : String) : ExStore :=
  if k ∈ s.faulty then s else { s with data := deleteItem s.data k }

/-- Whether any of the four token keys is faulty, in which case the
Promise.all over the four writes or deletes rejects. -/
def anyTokenKeyFaulty (s : ExStore) : Bool :=
  decide (ACCESS_TOKEN_KEY ∈ s.faulty) || decide (REFRESH_TOKEN_KEY ∈ s.faulty) ||
  decide (TOKEN_EXPIRY_KEY ∈ s.faulty) || decide (REFRESH_EXPIRY_KEY ∈ s.faulty)

/-- Effectful TokenManager.storeTokens: all four writes are attempted
(Promise.all starts all of them); the call as a whole throws when any of
the four keys is faulty, and the writes to healthy keys still commit. -/
def storeTokensE (s : ExStore) (accessToken refreshToken : String)
    (expiresIn refreshExpiresIn : Int) (now : Int) : Except Unit Unit × ExStore :=
  let accessExpiry := now + expiresIn * 1000
  let refreshExpiry := now + refreshExpiresIn * 1000
  let s' := trySet (trySet (trySet (trySet s
    ACCESS_TOKEN_KEY accessToken)
    REFRESH_TOKEN_KEY refreshToken)
    TOKEN_EXPIRY_KEY (toString accessExpiry))
    REFRESH_EXPIRY_KEY (toString refreshExpiry)
  (if anyTokenKeyFaulty s then .error () else .ok (), s')

/-- Effectful TokenManager.clearTokens. -/
def clearTokensE (s : ExStore) : Except Unit Unit × ExStore :=
  let s' := tryDel (tryDel (tryDel (tryDel s
    ACCESS_TOKEN_KEY) REFRESH_TOKEN_KEY) TOKEN_EXPIRY_KEY) REFRESH_EXPIRY_KEY
  (if anyTokenKeyFaulty s then .error () else .ok (), s')

/-- Effectful TokenManager.getAccessToken: no try/catch, a storage failure
propagates. -/
def getAccessTokenE (s : ExStore) : Except Unit (Option String) :=
  exGet s ACCESS_TOKEN_KEY

/-- Effectful TokenManager.getRefreshToken: no try/catch, a storage failure
propagates. -/
def getRefreshTokenE (s : ExStore) : Except Unit (Option String) :=
  exGet s REFRESH_TOKEN_KEY

/-- Effectful TokenManager.isAccessTokenExpired: the awaited read can throw
and the function has no handler, so the failure propagates. -/
def isAccessTokenExpiredE (s : ExStore) (now : Int) : Except Unit Bool :=
  (exGet s TOKEN_EXPIRY_KEY).map (fun e => expiryCheck e now (5 * 60 * 1000))

/-- Effectful TokenManager.isRefreshTokenExpired, analogously. -/
def isRefreshTokenExpiredE (s : ExStore) (now : Int) : Except Unit Bool :=
  (exGet s REFRESH_EXPIRY_KEY).map (fun e => expiryCheck e now 0)

/-- Effectful TokenManager.refreshAccessToken: the whole body sits inside
try/catch, so every storage failure raised within it is caught and turned
into the return value false; the result type shows that no error can reach
the caller. -/
def refreshAccessTokenE (s : ExStore) (o : RefreshOutcome) (now : Int) :
    Bool × ExStore :=
  match getRefreshTokenE s with
  | .error _ => (false, s)
  | .ok none => (false, s)
  | .ok (some refreshToken) =>
    if refreshToken = "" then (false, s)
    else
      match o with
      | .ok d =>
        match storeTokensE s d.access_token d.refresh_token
            d.expires_in d.refresh_expires_in now with
        | (.ok _, s') => (true, s')
        | (.error _, s') => (false, s')
      | .httpError => (false, s)
      | .exn => (false, s)

/-! ## Helper lemmas about the Token Manager -/

theorem getRefreshToken_storeTokens (st : Store) (a r : String)
    (ei rei now : Int) :
    getRefreshToken (storeTokens st a r ei rei now) = some r := by
  unfold storeTokens getRefreshToken getItem setItem
  rw [getAssoc_putAssoc_ne _ _ _ _ (by decide),
      getAssoc_putAssoc_ne _ _ _ _ (by decide),
      getAssoc_putAssoc_same]

theorem getAccessToken_storeTokens (st : Store) (a r : String)
    (ei rei now : Int) :
    getAccessToken (storeTokens st a r ei rei now) = some a := by
  unfold storeTokens getAccessToken getItem setItem
  rw [getAssoc_putAssoc_ne _ _ _ _ (by decide),
      getAssoc_putAssoc_ne _ _ _ _ (by decide),
      getAssoc_putAssoc_ne _ _ _ _ (by decide),
      getAssoc_putAssoc_same]

theorem tokenExpiry_storeTokens (st : Store) (a r : String)
    (ei rei now : Int) :
    getItem (storeTokens st a r ei rei now) TOKEN_EXPIRY_KEY =
      some (toString (now + ei * 1000)) := by
  unfold storeTokens getItem setItem
  rw [getAssoc_putAssoc_ne _ _ _ _ (by decide), getAssoc_putAssoc_same]

/-- When refreshAccessToken reports failure, it has not touched the store. -/
theorem refresh_fail_store (st : Store) (o : RefreshOutcome) (now : Int)
    (h : (refreshAccessToken st o now).success = false) :
    (refreshAccessToken st o now).store = st := by
  cases hrt : getRefreshToken st with
  | none => simp [refreshAccessToken, hrt]
  | some rt =>
    by_cases hrt0 : rt = ""
    · simp [refreshAccessToken, hrt, hrt0]
    · cases o with
      | ok d => simp [refreshAccessToken, hrt, hrt0] at h
      | httpError => simp [refreshAccessToken, hrt, hrt0]
      | exn => simp [refreshAccessToken, hrt, hrt0]

theorem clearTokens_absent_access (st : Store) :
    getItem (clearTokens st) ACCESS_TOKEN_KEY = none := by
  unfold clearTokens getItem deleteItem
  rw [getAssoc_delAssoc_ne _ _ _ (by decide),
      getAssoc_delAssoc_ne _ _ _ (by decide),
      getAssoc_delAssoc_ne _ _ _ (by decide),
      getAssoc_delAssoc_same]

theorem clearTokens_absent_refresh (st : Store) :
    getItem (clearTokens st) REFRESH_TOKEN_KEY = none := by
  unfold clearTokens getItem deleteItem
  rw [getAssoc_delAssoc_ne _ _ _ (by decide),
      getAssoc_delAssoc_ne _ _ _ (by decide),
      getAssoc_delAssoc_same]

theorem clearTokens_absent_tokenExpiry (st : Store) :
    getItem (clearTokens st) TOKEN_EXPIRY_KEY = none := by
  unfold clearTokens getItem deleteItem
  rw [getAssoc_delAssoc_ne _ _ _ (by decide), getAssoc_delAssoc_same]

theorem clearTokens_absent_refreshExpiry (st : Store) :
    getItem (clearTokens st) REFRESH_EXPIRY_KEY = none := by
  unfold clearTokens getItem deleteItem
  rw [getAssoc_delAssoc_same]

/-! ## Claim theorems: Token Manager -/

/-- C2: for a stored access-expiry value E, isAccessTokenExpired is true
exactly when now >= E - 300000 ms (the boundary itself counts as expired);
consequently, after storeTokens with expiresIn = 3600 s at t = 0, the check
is false at t = 3000 s and true at t = 3301 s. -/
theorem C2_access_expiry_margin (st : Store) (now E : Int) (s : String)
    (h1 : getItem st TOKEN_EXPIRY_KEY = some s)
    (h2 : parseIntJS s = some E) :
    isAccessTokenExpired st now = decide (now ≥ E - 300000) ∧
    isAccessTokenExpired (storeTokens [] "tok" "ref" 3600 2592000 0) 3000000 = false ∧
    isAccessTokenExpired (storeTokens [] "tok" "ref" 3600 2592000 0) 3301000 = true := by
  refine ⟨?_, by decide, by decide⟩
  have hs : s ≠ "" := by
    intro h
    rw [h] at h2
    rw [show parseIntJS "" = none by decide] at h2
    exact Option.noConfusion h2
  have : (5 : Int) * 60 * 1000 = 300000 := by norm_num
  simp [isAccessTokenExpired, expiryCheck, h1, h2, hs, this]

/-- C2 witness: instantiated at the store produced by storeTokens with
expiresIn = 3600 at t = 0, whose stored expiry string is 3600000. -/
theorem C2_access_expiry_margin_witness :
    isAccessTokenExpired (storeTokens [] "tok" "ref" 3600 2592000 0) 3000000 =
      decide ((3000000 : Int) ≥ 3600000 - 300000) ∧
    isAccessTokenExpired (storeTokens [] "tok" "ref" 3600 2592000 0) 3000000 = false ∧
    isAccessTokenExpired (storeTokens [] "tok" "ref" 3600 2592000 0) 3301000 = true :=
  C2_access_expiry_margin (storeTokens [] "tok" "ref" 3600 2592000 0)
    3000000 3600000 "3600000" (by decide) (by decide)

/-- C3: whenever refreshAccessToken returns false, it throws nothing (the
embedding is a total function into RefreshResult) and the store, hence each
of the four stored values, is exactly what it was before the call. -/
theorem C3_failed_refresh_preserves_store (st : Store) (o : RefreshOutcome)
    (now : Int) (h : (refreshAccessToken st o now).success = false) :
    (refreshAccessToken st o now).store = st ∧
    getAccessToken (refreshAccessToken st o now).store = getAccessToken st ∧
    getRefreshToken (refreshAccessToken st o now).store = getRefreshToken st ∧
    getItem (refreshAccessToken st o now).store TOKEN_EXPIRY_KEY =
      getItem st TOKEN_EXPIRY_KEY ∧
    getItem (refreshAccessToken st o now).store REFRESH_EXPIRY_KEY =
      getItem st REFRESH_EXPIRY_KEY := by
  have hst := refresh_fail_store st o now h
  exact ⟨hst, by rw [hst], by rw [hst], by rw [hst], by rw [hst]⟩

/-- C3 witness: a stored refresh token and a backend that answers the
refresh POST with HTTP 500. -/
theorem C3_failed_refresh_preserves_store_witness :
    (refreshAccessToken [(REFRESH_TOKEN_KEY, "r1")] RefreshOutcome.httpError 7).store =
      [(REFRESH_TOKEN_KEY, "r1")] ∧
    getAccessToken (refreshAccessToken [(REFRESH_TOKEN_KEY, "r1")] RefreshOutcome.httpError 7).store =
      getAccessToken [(REFRESH_TOKEN_KEY, "r1")] ∧
    getRefreshToken (refreshAccessToken [(REFRESH_TOKEN_KEY, "r1")] RefreshOutcome.httpError 7).store =
      getRefreshToken [(REFRESH_TOKEN_KEY, "r1")] ∧
    getItem (refreshAccessToken [(REFRESH_TOKEN_KEY, "r1")] RefreshOutcome.httpError 7).store TOKEN_EXPIRY_KEY =
      getItem [(REFRESH_TOKEN_KEY, "r1")] TOKEN_EXPIRY_KEY ∧
    getItem (refreshAccessToken [(REFRESH_TOKEN_KEY, "r1")] RefreshOutcome.httpError 7).store REFRESH_EXPIRY_KEY =
      getItem [(REFRESH_TOKEN_KEY, "r1")] REFRESH_EXPIRY_KEY :=
  C3_failed_refresh_preserves_store [(REFRESH_TOKEN_KEY, "r1")]
    RefreshOutcome.httpError 7 (by decide)

/-- C5: after a successful refreshAccessToken whose 2xx body carries a
refresh_token, getRefreshToken returns that new refresh token; in
particular, when the new value differs from the old one, the old value is
no longer returned. -/
theorem C5_refresh_rotation_persists (st : Store) (d : RefreshData) (now : Int)
    (h : (refreshAccessToken st (.ok d) now).success = true) :
    getRefreshToken (refreshAccessToken st (.ok d) now).store =
      some d.refresh_token ∧
    (getRefreshToken st ≠ some d.refresh_token →
      getRefreshToken (refreshAccessToken st (.ok d) now).store ≠
        getRefreshToken st) := by
  have hmain : getRefreshToken (refreshAccessToken st (.ok d) now).store =
      some d.refresh_token := by
    cases hrt : getRefreshToken st with
    | none => simp [refreshAccessToken, hrt] at h
    | some rt =>
      by_cases hrt0 : rt = ""
      · simp [refreshAccessToken, hrt, hrt0] at h
      · simp [refreshAccessToken, hrt, hrt0, getRefreshToken_storeTokens]
  refine ⟨hmain, fun hne => ?_⟩
  rw [hmain]
  exact fun hh => hne hh.symm

/-- C5 witness: the old refresh token r1 is rotated to r2. -/
theorem C5_refresh_rotation_persists_witness :
    getRefreshToken (refreshAccessToken [(REFRESH_TOKEN_KEY, "r1")]
      (.ok ⟨"a2", "r2", 3600, 2592000⟩) 0).store = some "r2" ∧
    (getRefreshToken [(REFRESH_TOKEN_KEY, "r1")] ≠ some "r2" →
      getRefreshToken (refreshAccessToken [(REFRESH_TOKEN_KEY, "r1")]
        (.ok ⟨"a2", "r2", 3600, 2592000⟩) 0).store ≠
        getRefreshToken [(REFRESH_TOKEN_KEY, "r1")]) :=
  C5_refresh_rotation_persists [(REFRESH_TOKEN_KEY, "r1")]
    ⟨"a2", "r2", 3600, 2592000⟩ 0 (by decide)

/-- C8: with no refresh token stored, refreshAccessToken returns false
immediately, leaves the store unchanged, and performs zero network calls. -/
theorem C8_no_refresh_token_no_network (st : Store) (o : RefreshOutcome)
    (now : Int) (h : getRefreshToken st = none) :
    refreshAccessToken st o now = ⟨false, st, 0⟩ := by
  simp [refreshAccessToken, h]

/-- C8 witness: the empty store. -/
theorem C8_no_refresh_token_no_network_witness :
    refreshAccessToken [] RefreshOutcome.httpError 0 = ⟨false, [], 0⟩ :=
  C8_no_refresh_token_no_network [] RefreshOutcome.httpError 0 (by decide)

/-- C9: clearTokens raises no error (the embedding is a total function),
is idempotent, maps the empty store to the empty store, and leaves all
four token keys absent. -/
theorem C9_clearTokens_idempotent (st : Store) :
    clearTokens (clearTokens st) = clearTokens st ∧
    clearTokens ([] : Store) = [] ∧
    getItem (clearTokens st) ACCESS_TOKEN_KEY = none ∧
    getItem (clearTokens st) REFRESH_TOKEN_KEY = none ∧
    getItem (clearTokens st) TOKEN_EXPIRY_KEY = none ∧
    getItem (clearTokens st) REFRESH_EXPIRY_KEY = none := by
  refine ⟨?_, by decide, clearTokens_absent_access st,
    clearTokens_absent_refresh st, clearTokens_absent_tokenExpiry st,
    clearTokens_absent_refreshExpiry st⟩
  have h1 : delAssoc (clearTokens st) ACCESS_TOKEN_KEY = clearTokens st :=
    delAssoc_of_absent _ _ (clearTokens_absent_access st)
  have h2 : delAssoc (clearTokens st) REFRESH_TOKEN_KEY = clearTokens st :=
    delAssoc_of_absent _ _ (clearTokens_absent_refresh st)
  have h3 : delAssoc (clearTokens st) TOKEN_EXPIRY_KEY = clearTokens st :=
    delAssoc_of_absent _ _ (clearTokens_absent_tokenExpiry st)
  have h4 : delAssoc (clearTokens st) REFRESH_EXPIRY_KEY = clearTokens st :=
    delAssoc_of_absent _ _ (clearTokens_absent_refreshExpiry st)
  show deleteItem (deleteItem (deleteItem (deleteItem (clearTokens st)
    ACCESS_TOKEN_KEY) REFRESH_TOKEN_KEY) TOKEN_EXPIRY_KEY) REFRESH_EXPIRY_KEY =
    clearTokens st
  unfold deleteItem
  rw [h1, h2, h3, h4]

/-- C10: a stored non-empty expiry string on which parseInt yields NaN
makes isAccessTokenExpired return false (the token looks permanently
non-expired), whereas an absent expiry returns true. -/
theorem C10_nan_expiry_never_expired (st : Store) (now : Int) (s : String)
    (h1 : getItem st TOKEN_EXPIRY_KEY = some s) (h2 : s ≠ "")
    (h3 : parseIntJS s = none) :
    isAccessTokenExpired st now = false ∧
    isAccessTokenExpired [] now = true := by
  constructor
  · simp [isAccessTokenExpired, expiryCheck, h1, h2, h3]
  · simp [isAccessTokenExpired, expiryCheck, getItem, getAssoc]

/-- C10 witness: the corrupted expiry string garbage. -/
theorem C10_nan_expiry_never_expired_witness :
    isAccessTokenExpired [(TOKEN_EXPIRY_KEY, "garbage")] 0 = false ∧
    isAccessTokenExpired [] 0 = true :=
  C10_nan_expiry_never_expired [(TOKEN_EXPIRY_KEY, "garbage")] 0 "garbage"
    (by decide) (by decide) (by decide)

/-! ## Helper lemmas about the request client -/

theorem getHeader_setHeader_same (hs : Headers) (k v : String) :
    getHeader (setHeader hs k v) k = some v :=
  getAssoc_putAssoc_same hs k v

theorem getHeader_setHeader_ne (hs : Headers) (k v k' : String)
    (h : k' ≠ k) : getHeader (setHeader hs k v) k' = getHeader hs k' :=
  getAssoc_putAssoc_ne hs k v k' h

theorem getHeader_jsMerge_not_mem (extra : Headers) (base : Headers)
    (k : String) (h : k ∉ extra.map Prod.fst) :
    getHeader (jsMerge base extra) k = getHeader base k := by
  induction extra generalizing base with
  | nil => rfl
  | cons p rest ih =>
    have hk : k ≠ p.1 := by
      intro hh
      exact h (by simp [hh])
    have hrest : k ∉ rest.map Prod.fst := by
      intro hh
      exact h (by simp [hh])
    have hstep : jsMerge base (p :: rest) =
        jsMerge (setHeader base p.1 p.2) rest := rfl
    rw [hstep, ih _ hrest, getHeader_setHeader_ne _ _ _ _ hk]

theorem getHeader_jsMerge_mem (extra : Headers) (base : Headers)
    (k v : String) (hnd : (extra.map Prod.fst).Nodup)
    (hmem : (k, v) ∈ extra) :
    getHeader (jsMerge base extra) k = some v := by
  induction extra generalizing base with
  | nil => cases hmem
  | cons p rest ih =>
    have hstep : jsMerge base (p :: rest) =
        jsMerge (setHeader base p.1 p.2) rest := rfl
    rw [List.map_cons, List.nodup_cons] at hnd
    rcases List.mem_cons.mp hmem with hhd | htl
    · subst hhd
      rw [hstep, getHeader_jsMerge_not_mem _ _ _ hnd.1]
      exact getHeader_setHeader_same _ _ _
    · rw [hstep]
      exact ih (setHeader base p.1 p.2) hnd.2 htl

theorem apiFetchDispatch_dispatchStore (s1 : Store) (now : Int)
    (env : NetEnv) (url : String) (optHeaders : Headers) (rc0 : Nat) :
    (apiFetchDispatch s1 now env url optHeaders rc0).dispatchStore = some s1 := by
  unfold apiFetchDispatch
  by_cases h : env.response1.status = 401 <;>
    by_cases h2 : (refreshAccessToken s1 env.postflightRefresh now).success <;>
    simp [h, h2]

theorem apiFetchDispatch_first_request (s1 : Store) (now : Int)
    (env : NetEnv) (url : String) (optHeaders : Headers) (rc0 : Nat) :
    (apiFetchDispatch s1 now env url optHeaders rc0).requests.head? =
      some ⟨url, buildHeaders s1 optHeaders⟩ := by
  unfold apiFetchDispatch
  by_cases h : env.response1.status = 401 <;>
    by_cases h2 : (refreshAccessToken s1 env.postflightRefresh now).success <;>
    simp [h, h2]

/-- When an apiClient.fetch call records a dispatch store, the whole call
reduces to the dispatch phase run on that store. -/
theorem apiFetch_dispatch_eq (st : Store) (now : Int) (env : NetEnv)
    (url : String) (optHeaders : Headers) (s1 : Store)
    (hds : (apiFetch st now env url optHeaders).dispatchStore = some s1) :
    ∃ rc0, apiFetch st now env url optHeaders =
      apiFetchDispatch s1 now env url optHeaders rc0 := by
  by_cases hexp : isAccessTokenExpired st now
  · by_cases hok : (refreshAccessToken st env.preflightRefresh now).success
    · have heq : apiFetch st now env url optHeaders =
          apiFetchDispatch (refreshAccessToken st env.preflightRefresh now).store
            now env url optHeaders
            (refreshAccessToken st env.preflightRefresh now).networkCalls := by
        simp [apiFetch, hexp, hok]
      have hs1 : (refreshAccessToken st env.preflightRefresh now).store = s1 := by
        have := hds
        rw [heq, apiFetchDispatch_dispatchStore] at this
        exact Option.some.inj this
      exact ⟨(refreshAccessToken st env.preflightRefresh now).networkCalls,
        by rw [heq, hs1]⟩
    · rw [show apiFetch st now env url optHeaders =
          { result := .sessionExpired,
            finalStore := clearTokens (refreshAccessToken st env.preflightRefresh now).store,
            dispatchStore := none, asyncStorageCleared := true,
            navigatedToRoot := true, requests := [],
            refreshCalls := (refreshAccessToken st env.preflightRefresh now).networkCalls }
          by simp [apiFetch, hexp, hok]] at hds
      exact Option.noConfusion hds
  · have heq : apiFetch st now env url optHeaders =
        apiFetchDispatch st now env url optHeaders 0 := by
      simp [apiFetch, hexp]
    have hs1 : st = s1 := by
      have := hds
      rw [heq, apiFetchDispatch_dispatchStore] at this
      exact Option.some.inj this
    exact ⟨0, by rw [heq, hs1]⟩

/-! ## Claim theorems: request client -/

/-- C1: when a dispatched request is answered with 401, the post-flight
refresh succeeds, and the retried request is answered with 401 again, the
client has issued exactly two requests (the original and one retry, so at
most two) and hands the second response back unmodified, with no third
request; the same holds whatever the status of the second response is. -/
theorem C1_at_most_one_retry (st : Store) (now : Int) (env : NetEnv)
    (url : String) (optHeaders : Headers) (s1 : Store)
    (hds : (apiFetch st now env url optHeaders).dispatchStore = some s1)
    (h401 : env.response1.status = 401)
    (hr : (refreshAccessToken s1 env.postflightRefresh now).success = true) :
    (apiFetch st now env url optHeaders).requests.length = 2 ∧
    (apiFetch st now env url optHeaders).result = .success env.response2 := by
  obtain ⟨rc0, heq⟩ := apiFetch_dispatch_eq st now env url optHeaders s1 hds
  rw [heq]
  unfold apiFetchDispatch
  simp [h401, hr]

/-- C1 witness: a fresh store, both backend answers 401, the refresh in
between succeeds. -/
theorem C1_at_most_one_retry_witness :
    (apiFetch (storeTokens [] "a" "r" 3600 2592000 0) 0
      ⟨RefreshOutcome.httpError, ⟨401, "b1"⟩,
        RefreshOutcome.ok ⟨"a2", "r2", 3600, 2592000⟩, ⟨401, "b2"⟩⟩
      "https://api/x" []).requests.length = 2 ∧
    (apiFetch (storeTokens [] "a" "r" 3600 2592000 0) 0
      ⟨RefreshOutcome.httpError, ⟨401, "b1"⟩,
        RefreshOutcome.ok ⟨"a2", "r2", 3600, 2592000⟩, ⟨401, "b2"⟩⟩
      "https://api/x" []).result = .success ⟨401, "b2"⟩ :=
  C1_at_most_one_retry (storeTokens [] "a" "r" 3600 2592000 0) 0
    ⟨RefreshOutcome.httpError, ⟨401, "b1"⟩,
      RefreshOutcome.ok ⟨"a2", "r2", 3600, 2592000⟩, ⟨401, "b2"⟩⟩
    "https://api/x" [] (storeTokens [] "a" "r" 3600 2592000 0)
    (by decide) (by decide) (by decide)

/-- C4: when the pre-flight expiry check fires and the pre-flight refresh
fails, the client clears the token store, clears the cached session data,
navigates to the unauthenticated entry point, fails the call with the
Session expired error, and never dispatches the original request. -/
theorem C4_preflight_failure_blocks_dispatch (st : Store) (now : Int)
    (env : NetEnv) (url : String) (optHeaders : Headers)
    (hexp : isAccessTokenExpired st now = true)
    (hfail : (refreshAccessToken st env.preflightRefresh now).success = false) :
    (apiFetch st now env url optHeaders).result = .sessionExpired ∧
    (apiFetch st now env url optHeaders).requests = [] ∧
    (apiFetch st now env url optHeaders).finalStore = clearTokens st ∧
    (apiFetch st now env url optHeaders).asyncStorageCleared = true ∧
    (apiFetch st now env url optHeaders).navigatedToRoot = true := by
  have hst := refresh_fail_store st env.preflightRefresh now hfail
  refine ⟨?_, ?_, ?_, ?_, ?_⟩ <;> simp [apiFetch, hexp, hfail, hst]

/-- C4 witness: the empty store is expired, and with no refresh token the
pre-flight refresh fails. -/
theorem C4_preflight_failure_blocks_dispatch_witness :
    (apiFetch [] 0 ⟨RefreshOutcome.httpError, ⟨200, "b1"⟩,
      RefreshOutcome.httpError, ⟨200, "b2"⟩⟩ "https://api/x" []).result =
      .sessionExpired ∧
    (apiFetch [] 0 ⟨RefreshOutcome.httpError, ⟨200, "b1"⟩,
      RefreshOutcome.httpError, ⟨200, "b2"⟩⟩ "https://api/x" []).requests = [] ∧
    (apiFetch [] 0 ⟨RefreshOutcome.httpError, ⟨200, "b1"⟩,
      RefreshOutcome.httpError, ⟨200, "b2"⟩⟩ "https://api/x" []).finalStore =
      clearTokens [] ∧
    (apiFetch [] 0 ⟨RefreshOutcome.httpError, ⟨200, "b1"⟩,
      RefreshOutcome.httpError, ⟨200, "b2"⟩⟩ "https://api/x" []).asyncStorageCleared =
      true ∧
    (apiFetch [] 0 ⟨RefreshOutcome.httpError, ⟨200, "b1"⟩,
      RefreshOutcome.httpError, ⟨200, "b2"⟩⟩ "https://api/x" []).navigatedToRoot =
      true :=
  C4_preflight_failure_blocks_dispatch [] 0
    ⟨RefreshOutcome.httpError, ⟨200, "b1"⟩, RefreshOutcome.httpError, ⟨200, "b2"⟩⟩
    "https://api/x" [] (by decide) (by decide)

/-- C7: when a request is dispatched while the store holds a truthy access
token t, the dispatched headers carry every caller-supplied header with key
other than Authorization unchanged, and Authorization is the string Bearer
followed by t. -/
theorem C7_headers_preserved (st : Store) (now : Int) (env : NetEnv)
    (url : String) (optHeaders : Headers)
    (hnd : (optHeaders.map Prod.fst).Nodup)
    (s1 : Store) (hds : (apiFetch st now env url optHeaders).dispatchStore = some s1)
    (req : DispatchedRequest) (rest : List DispatchedRequest)
    (hreq : (apiFetch st now env url optHeaders).requests = req :: rest)
    (t : String) (ht : getAccessToken s1 = some t) (ht0 : t ≠ "")
    (k v : String) (hmem : (k, v) ∈ optHeaders) (hka : k ≠ "Authorization") :
    getHeader req.headers k = some v ∧
    getHeader req.headers "Authorization" = some ("Bearer " ++ t) := by
  obtain ⟨rc0, heq⟩ := apiFetch_dispatch_eq st now env url optHeaders s1 hds
  rw [heq] at hreq
  have hhd : req = ⟨url, buildHeaders s1 optHeaders⟩ := by
    have hfr := apiFetchDispatch_first_request s1 now env url optHeaders rc0
    rw [hreq] at hfr
    simpa using hfr
  have hbh : buildHeaders s1 optHeaders =
      setHeader (jsMerge [("Content-Type", "application/json")] optHeaders)
        "Authorization" ("Bearer " ++ t) := by
    simp [buildHeaders, ht, ht0]
  rw [hhd, hbh]
  constructor
  · rw [getHeader_setHeader_ne _ _ _ _ hka]
    exact getHeader_jsMerge_mem optHeaders _ k v hnd hmem
  · exact getHeader_setHeader_same _ _ _

/-- C7 witness: a caller-supplied X-Custom header next to a stored access
token a. -/
theorem C7_headers_preserved_witness :
    getHeader (DispatchedRequest.headers ⟨"https://api/x",
      buildHeaders (storeTokens [] "a" "r" 3600 2592000 0) [("X-Custom", "1")]⟩)
      "X-Custom" = some "1" ∧
    getHeader (DispatchedRequest.headers ⟨"https://api/x",
      buildHeaders (storeTokens [] "a" "r" 3600 2592000 0) [("X-Custom", "1")]⟩)
      "Authorization" = some ("Bearer " ++ "a") :=
  C7_headers_preserved (storeTokens [] "a" "r" 3600 2592000 0) 0
    ⟨RefreshOutcome.httpError, ⟨200, "b1"⟩, RefreshOutcome.httpError, ⟨200, "b2"⟩⟩
    "https://api/x" [("X-Custom", "1")] (by decide)
    (storeTokens [] "a" "r" 3600 2592000 0) (by decide)
    ⟨"https://api/x", buildHeaders (storeTokens [] "a" "r" 3600 2592000 0)
      [("X-Custom", "1")]⟩ [] (by decide) "a" (by decide) (by decide)
    "X-Custom" "1" (by decide) (by decide)

/-! ## Claim theorems: storage-failure propagation -/

/-- C6 counterexample: a store whose refresh-token key throws on every
access. The underlying read does fail (the effectful getItem returns the
embedded thrown error), yet refreshAccessToken completes normally with
false and the untouched store: the try/catch around its whole body swallows
the storage failure instead of propagating it, so the claim is false for
the operation refreshAccessToken. -/
theorem C6_counterexample :
    exGet ⟨[(REFRESH_TOKEN_KEY, "tok")], [REFRESH_TOKEN_KEY]⟩ REFRESH_TOKEN_KEY =
      .error () ∧
    refreshAccessTokenE ⟨[(REFRESH_TOKEN_KEY, "tok")], [REFRESH_TOKEN_KEY]⟩
      RefreshOutcome.httpError 0 =
      (false, ⟨[(REFRESH_TOKEN_KEY, "tok")], [REFRESH_TOKEN_KEY]⟩) := by
  constructor
  · rfl
  · rfl

/-- C6 amended: every Token Manager operation other than refreshAccessToken
propagates a storage failure to its caller (the effectful embeddings return
the error), while refreshAccessToken, whose body is wrapped in try/catch,
swallows a failing refresh-token read and returns false with the store
unchanged. -/
theorem C6_storage_failures (s : ExStore) (now : Int) (o : RefreshOutcome)
    (a r : String) (ei rei : Int) :
    (ACCESS_TOKEN_KEY ∈ s.faulty → getAccessTokenE s = .error ()) ∧
    (REFRESH_TOKEN_KEY ∈ s.faulty → getRefreshTokenE s = .error ()) ∧
    (TOKEN_EXPIRY_KEY ∈ s.faulty → isAccessTokenExpiredE s now = .error ()) ∧
    (REFRESH_EXPIRY_KEY ∈ s.faulty → isRefreshTokenExpiredE s now = .error ()) ∧
    (anyTokenKeyFaulty s = true → (storeTokensE s a r ei rei now).1 = .error ()) ∧
    (anyTokenKeyFaulty s = true → (clearTokensE s).1 = .error ()) ∧
    (REFRESH_TOKEN_KEY ∈ s.faulty → refreshAccessTokenE s o now = (false, s)) := by
  refine ⟨fun h => ?_, fun h => ?_, fun h => ?_, fun h => ?_,
    fun h => ?_, fun h => ?_, fun h => ?_⟩
  · simp [getAccessTokenE, exGet, h]
  · simp [getRefreshTokenE, exGet, h]
  · simp [isAccessTokenExpiredE, exGet, h, Except.map]
  · simp [isRefreshTokenExpiredE, exGet, h, Except.map]
  · simp [storeTokensE, h]
  · simp [clearTokensE, h]
  · simp [refreshAccessTokenE, getRefreshTokenE, exGet, h]

/-- C6 amended witness: a store on which all four token keys throw. -/
theorem C6_storage_failures_witness :
    getAccessTokenE ⟨[], [ACCESS_TOKEN_KEY, REFRESH_TOKEN_KEY, TOKEN_EXPIRY_KEY,
      REFRESH_EXPIRY_KEY]⟩ = .error () ∧
    getRefreshTokenE ⟨[], [ACCESS_TOKEN_KEY, REFRESH_TOKEN_KEY, TOKEN_EXPIRY_KEY,
      REFRESH_EXPIRY_KEY]⟩ = .error () ∧
    isAccessTokenExpiredE ⟨[], [ACCESS_TOKEN_KEY, REFRESH_TOKEN_KEY,
      TOKEN_EXPIRY_KEY, REFRESH_EXPIRY_KEY]⟩ 0 = .error () ∧
    isRefreshTokenExpiredE ⟨[], [ACCESS_TOKEN_KEY, REFRESH_TOKEN_KEY,
      TOKEN_EXPIRY_KEY, REFRESH_EXPIRY_KEY]⟩ 0 = .error () ∧
    (storeTokensE ⟨[], [ACCESS_TOKEN_KEY, REFRESH_TOKEN_KEY, TOKEN_EXPIRY_KEY,
      REFRESH_EXPIRY_KEY]⟩ "x" "y" 1 2 0).1 = .error () ∧
    (clearTokensE ⟨[], [ACCESS_TOKEN_KEY, REFRESH_TOKEN_KEY, TOKEN_EXPIRY_KEY,
      REFRESH_EXPIRY_KEY]⟩).1 = .error () ∧
    refreshAccessTokenE ⟨[], [ACCESS_TOKEN_KEY, REFRESH_TOKEN_KEY,
      TOKEN_EXPIRY_KEY, REFRESH_EXPIRY_KEY]⟩ RefreshOutcome.httpError 0 =
      (false, ⟨[], [ACCESS_TOKEN_KEY, REFRESH_TOKEN_KEY, TOKEN_EXPIRY_KEY,
        REFRESH_EXPIRY_KEY]⟩) := by
  have h := C6_storage_failures ⟨[], [ACCESS_TOKEN_KEY, REFRESH_TOKEN_KEY,
    TOKEN_EXPIRY_KEY, REFRESH_EXPIRY_KEY]⟩ 0 RefreshOutcome.httpError "x" "y" 1 2
  exact ⟨h.1 (by decide), h.2.1 (by decide), h.2.2.1 (by decide),
    h.2.2.2.1 (by decide), h.2.2.2.2.1 (by decide), h.2.2.2.2.2.1 (by decide),
    h.2.2.2.2.2.2 (by decide)⟩

end Geoprox
